import Mathlib

/-!
Verification development for the pricehubble data-processing script
(`scripts/data_processing.py`).

The script loads a tabular record set from JSON/CSV input, runs a
six-stage validation/cleaning pipeline over it, and writes the result.
We embed the record set as a list of labelled rows (pandas keeps the
original integer index labels across boolean-mask filtering), embed each
pipeline stage as a function `DF → Except PyErr (DF × List String)`
returning the new record set together with the log lines it emits, and
embed the JSON loading path including Python's `json.loads` (modelled by
an executable JSON parser) and its exception behaviour
(`json.JSONDecodeError` vs `TypeError`).

Numbers are modelled as rationals; pandas `NaN`/JSON `null`/missing
cells are the explicit `Val.vnull`.  Per the pandas semantics used by
the script, a null compares as out-of-range in `between`, arithmetic
with a null yields null, and arithmetic or ordering against a string
raises `TypeError`.
-/

/-- A parsed JSON value, the result of Python's `json.loads`. -/
inductive JVal where
  | jnull : JVal
  | jbool (b : Bool) : JVal
  | jnum (q : ℚ) : JVal
  | jstr (s : String) : JVal
  | jarr (elems : List JVal) : JVal
  | jobj (fields : List (String × JVal)) : JVal

/-- A cell value of the record set: null (pandas NaN / missing), a number,
a string, a boolean, or a nested collection (a JSON array/object stored as
a Python object in an object-dtype column). -/
inductive Val where
  | vnull : Val
  | vnum (q : ℚ) : Val
  | vstr (s : String) : Val
  | vbool (b : Bool) : Val
  | vcoll (j : JVal) : Val

/-- The Python exceptions the script can raise or catch. -/
inductive PyErr where
  | keyError (c : String) : PyErr
  | typeError : PyErr
  | jsonDecodeError : PyErr
  | valueError (msg : String) : PyErr
  | attributeError : PyErr
  | fileNotFound : PyErr
deriving DecidableEq

/-! ## A JSON parser modelling Python's `json.loads` on strings -/

/-- JSON whitespace. -/
def isJsonWs (c : Char) : Bool :=
  c = ' ' || c = '\n' || c = '\t' || c = '\r'

/-- Numeric value of a digit run. -/
def digitsToNat (ds : List Char) : Nat :=
  ds.foldl (fun n c => n * 10 + (c.toNat - 48)) 0

/-- Value of a hexadecimal digit. -/
def hexVal (c : Char) : Nat :=
  if c.isDigit then c.toNat - 48
  else if 'A' ≤ c && c ≤ 'F' then c.toNat - 55
  else c.toNat - 87

/-- Hexadecimal digit test. -/
def isHexChar (c : Char) : Bool :=
  c.isDigit || ('a' ≤ c && c ≤ 'f') || ('A' ≤ c && c ≤ 'F')

/-- ASCII lower-casing of one character (`str.lower` acts only on the
ASCII suffixes the script dispatches on). -/
def lowerChar (c : Char) : Char :=
  if 'A' ≤ c && c ≤ 'Z' then Char.ofNat (c.toNat + 32) else c

/-- Python `str.lower()` for the file suffix. -/
def lowerStr (s : String) : String := String.mk (s.data.map lowerChar)

/-- Split a character list on a separator character (`str.split`): the
separators themselves are dropped and empty pieces are kept. -/
def splitOnChar (sep : Char) : List Char → List (List Char)
  | [] => [[]]
  | c :: rest =>
    if c = sep then [] :: splitOnChar sep rest
    else
      match splitOnChar sep rest with
      | h :: t => (c :: h) :: t
      | [] => [[c]]

/-- Prepend an object member parsed on the left of the members `fields`
parsed after it, with Python-dict duplicate-key semantics: key order is
the first occurrence, the value is the last assignment. -/
def insertField (k : String) (v : JVal) (fields : List (String × JVal)) :
    List (String × JVal) :=
  match fields.find? (fun kv => kv.1 == k) with
  | some kv => (k, kv.2) :: fields.filter (fun p => p.1 != k)
  | none => (k, v) :: fields

/-- Parse the body of a JSON string literal (after the opening quote),
handling the escape sequences `json.loads` accepts; returns the decoded
characters and the input after the closing quote. -/
def parseStrChars : List Char → Option (List Char × List Char)
  | [] => none
  | '"' :: rest => some ([], rest)
  | '\\' :: 'u' :: h1 :: h2 :: h3 :: h4 :: rest =>
      if isHexChar h1 && isHexChar h2 && isHexChar h3 && isHexChar h4 then
        (parseStrChars rest).map fun p =>
          (Char.ofNat (4096 * hexVal h1 + 256 * hexVal h2 + 16 * hexVal h3 + hexVal h4) :: p.1,
           p.2)
      else none
  | '\\' :: e :: rest =>
      let dec : Option Char :=
        if e = '"' then some '"'
        else if e = '\\' then some '\\'
        else if e = '/' then some '/'
        else if e = 'b' then some (Char.ofNat 8)
        else if e = 'f' then some (Char.ofNat 12)
        else if e = 'n' then some '\n'
        else if e = 'r' then some '\r'
        else if e = 't' then some '\t'
        else none
      match dec with
      | some c => (parseStrChars rest).map fun p => (c :: p.1, p.2)
      | none => none
  | c :: rest =>
      if c.toNat < 32 then none
      else (parseStrChars rest).map fun p => (c :: p.1, p.2)

/-- Parse a JSON number (sign, integer part, optional fraction, optional
exponent) into a rational, returning the rest of the input. -/
def parseNum (cs : List Char) : Option (ℚ × List Char) :=
  let (sign, cs1) : ℚ × List Char :=
    match cs with
    | '-' :: rest => (-1, rest)
    | _ => (1, cs)
  let ds := cs1.takeWhile Char.isDigit
  let cs2 := cs1.dropWhile Char.isDigit
  if ds = [] then none
  else if ds.length > 1 && ds.headD '0' = '0' then none
  else
    let ip : ℚ := (digitsToNat ds : ℚ)
    let (mant, cs3) : ℚ × List Char :=
      match cs2 with
      | '.' :: r =>
          let fs := r.takeWhile Char.isDigit
          (ip + (digitsToNat fs : ℚ) / ((10 : ℚ) ^ fs.length), r.dropWhile Char.isDigit)
      | _ => (ip, cs2)
    match cs2 with
    | '.' :: r => if r.takeWhile Char.isDigit = [] then none else
        finishNum sign mant cs3
    | _ => finishNum sign mant cs3
where
  /-- Handle an optional exponent and assemble the final rational. -/
  finishNum (sign mant : ℚ) (cs : List Char) : Option (ℚ × List Char) :=
    match cs with
    | 'e' :: r => expPart sign mant r
    | 'E' :: r => expPart sign mant r
    | _ => some (sign * mant, cs)
  /-- Parse the exponent digits after `e`/`E`. -/
  expPart (sign mant : ℚ) (cs : List Char) : Option (ℚ × List Char) :=
    let (esign, cs1) : Bool × List Char :=
      match cs with
      | '-' :: r => (true, r)
      | '+' :: r => (false, r)
      | _ => (false, cs)
    let eds := cs1.takeWhile Char.isDigit
    if eds = [] then none
    else
      let e := digitsToNat eds
      let v := if esign then sign * mant / ((10 : ℚ) ^ e) else sign * mant * ((10 : ℚ) ^ e)
      some (v, cs1.dropWhile Char.isDigit)

mutual
/-- Parse one JSON value (fuelled recursion). -/
def parseVal : Nat → List Char → Option (JVal × List Char)
  | 0, _ => none
  | Nat.succ fuel, cs =>
    match cs.dropWhile isJsonWs with
    | 'n' :: 'u' :: 'l' :: 'l' :: r => some (.jnull, r)
    | 't' :: 'r' :: 'u' :: 'e' :: r => some (.jbool true, r)
    | 'f' :: 'a' :: 'l' :: 's' :: 'e' :: r => some (.jbool false, r)
    | '"' :: r => (parseStrChars r).map fun p => (.jstr (String.mk p.1), p.2)
    | '[' :: r =>
        (match (r.dropWhile isJsonWs) with
         | ']' :: r2 => some (.jarr [], r2)
         | _ => (parseArrItems fuel r).map fun p => (.jarr p.1, p.2))
    | '{' :: r =>
        (match (r.dropWhile isJsonWs) with
         | '}' :: r2 => some (.jobj [], r2)
         | _ => (parseObjItems fuel r).map fun p => (.jobj p.1, p.2))
    | other => (parseNum other).map fun p => (.jnum p.1, p.2)

/-- Parse the (non-empty) comma-separated items of a JSON array, up to and
including the closing bracket. -/
def parseArrItems : Nat → List Char → Option (List JVal × List Char)
  | 0, _ => none
  | Nat.succ fuel, cs =>
    match parseVal fuel cs with
    | none => none
    | some (v, rest) =>
      match rest.dropWhile isJsonWs with
      | ']' :: r2 => some ([v], r2)
      | ',' :: r2 =>
          (parseArrItems fuel r2).map fun p => (v :: p.1, p.2)
      | _ => none

/-- Parse the (non-empty) comma-separated `"key": value` members of a JSON
object, up to and including the closing brace.  Python's `dict` keeps the
first position of a repeated key and overwrites its value, which
`insertField` reproduces. -/
def parseObjItems : Nat → List Char → Option (List (String × JVal) × List Char)
  | 0, _ => none
  | Nat.succ fuel, cs =>
    match cs.dropWhile isJsonWs with
    | '"' :: r =>
      (match parseStrChars r with
       | none => none
       | some (kcs, r2) =>
         match r2.dropWhile isJsonWs with
         | ':' :: r3 =>
           (match parseVal fuel r3 with
            | none => none
            | some (v, r4) =>
              match r4.dropWhile isJsonWs with
              | '}' :: r5 => some ([(String.mk kcs, v)], r5)
              | ',' :: r5 =>
                  (parseObjItems fuel r5).map fun p =>
                    (insertField (String.mk kcs) v p.1, p.2)
              | _ => none)
         | _ => none)
    | _ => none
end

/-- `json.loads` on a string: parse one JSON value and require only
whitespace to remain; any failure is a `json.JSONDecodeError`. -/
def json_parse (s : String) : Except PyErr JVal :=
  match parseVal (2 * s.length + 2) s.data with
  | some (v, rest) =>
      if rest.dropWhile isJsonWs = [] then .ok v else .error .jsonDecodeError
  | none => .error .jsonDecodeError

/-! ## Cell-level operations mirroring the pandas semantics the script uses -/

mutual
/-- Python `str()` of a nested JSON-derived object, as it would appear
after `astype(str)` on an object column.  (Only log-only conditions ever
look at this text, and any bracketed rendering is neither all-digits nor
date-shaped, which is all those conditions test.) -/
def pyRepr : JVal → String
  | .jnull => "None"
  | .jbool b => if b then "True" else "False"
  | .jnum q => if q.den = 1 then toString q.num else toString q
  | .jstr s => "\x27" ++ s ++ "\x27"
  | .jarr xs => "[" ++ String.intercalate ", " (pyReprList xs) ++ "]"
  | .jobj kvs => "\x7b" ++ String.intercalate ", " (pyReprObj kvs) ++ "\x7d"

/-- `pyRepr` of the elements of an array. -/
def pyReprList : List JVal → List String
  | [] => []
  | x :: xs => pyRepr x :: pyReprList xs

/-- `pyRepr` of the members of an object. -/
def pyReprObj : List (String × JVal) → List String
  | [] => []
  | kv :: kvs => ("\x27" ++ kv.1 ++ "\x27: " ++ pyRepr kv.2) :: pyReprObj kvs
end

/-- Python `str()` of a cell value, as `astype(str)` produces it: NaN
prints as "nan", integral numbers print bare (the per-cell model of the
column cast), booleans as "True"/"False". -/
def py_str : Val → String
  | .vnull => "nan"
  | .vnum q => if q.den = 1 then toString q.num else toString q
  | .vstr s => s
  | .vbool b => if b then "True" else "False"
  | .vcoll j => pyRepr j

/-- Python `str.isnumeric`, restricted to ASCII digits: nonempty and all
digits. -/
def py_isnumeric (s : String) : Bool :=
  !s.isEmpty && s.data.all Char.isDigit

/-- pandas `isnull` on a cell: exactly NaN/missing. -/
def Val.isnull : Val → Bool
  | .vnull => true
  | _ => false

/-- The numeric reading pandas uses in arithmetic and `between`: numbers
are themselves, booleans count as 1/0; NaN has no numeric value, and
strings/collections (which raise TypeError, ruled out by `numOK` first)
have none either. -/
def asNumT : Val → Option ℚ
  | .vnum q => some q
  | .vbool b => some (if b then 1 else 0)
  | _ => none

/-- Whether ordering/arithmetic against a number is defined for this cell:
pandas raises TypeError on strings and nested collections. -/
def numOK : Val → Bool
  | .vstr _ => false
  | .vcoll _ => false
  | _ => true

/-- One row of `(price / living_area).between(500, 15000)`: NaN propagates
through the division (a null operand fails the check) and a zero
denominator gives inf/NaN, which `between` also rejects. -/
def ratio_between (price area : Val) : Bool :=
  match asNumT price, asNumT area with
  | some p, some a => if a = 0 then false else decide (500 ≤ p / a ∧ p / a ≤ 15000)
  | _, _ => false

/-- One row of `living_area.between(10, 500)`: false for null. -/
def area_ok (v : Val) : Bool :=
  match asNumT v with
  | some a => decide (10 ≤ a ∧ a ≤ 500)
  | none => false

/-- pandas `isin` against a list of strings: only string cells can match. -/
def isin_strs (v : Val) (l : List String) : Bool :=
  match v with
  | .vstr s => s ∈ l
  | _ => false

/-- Full match of the anchored date regex `^\d{4}-\d{2}-\d{2}$`. -/
def date_match (s : String) : Bool :=
  match s.data with
  | [y1, y2, y3, y4, h1, m1, m2, h2, d1, d2] =>
      y1.isDigit && y2.isDigit && y3.isDigit && y4.isDigit &&
      h1 == '-' && m1.isDigit && m2.isDigit && h2 == '-' && d1.isDigit && d2.isDigit
  | _ => false

/-- First match of the regex `\d+\.?\d*` in a character list: scan to the
first digit, then greedily a maximal digit run, an optional dot, and a
maximal digit run. -/
def regex_first_num : List Char → Option (List Char)
  | [] => none
  | c :: rest =>
    if c.isDigit then
      let ds := (c :: rest).takeWhile Char.isDigit
      match (c :: rest).dropWhile Char.isDigit with
      | '.' :: r2 => some (ds ++ '.' :: r2.takeWhile Char.isDigit)
      | _ => some ds
    else regex_first_num rest

/-- `float()` of a decimal literal `digits[.digits*]`, the only shapes the
extraction regex produces. -/
def parse_decimal (cs : List Char) : ℚ :=
  let ip := cs.takeWhile Char.isDigit
  match cs.dropWhile Char.isDigit with
  | '.' :: fs => (digitsToNat ip : ℚ) + (digitsToNat fs : ℚ) / ((10 : ℚ) ^ fs.length)
  | _ => (digitsToNat ip : ℚ)

/-- One cell of `raw_price.str.extract((\d+\.?\d*)).astype(float)`: a
non-string cell gives NaN, a string without digits gives NaN, otherwise
the first match parsed as a float. -/
def extract_price : Val → Val
  | .vstr s =>
      match regex_first_num s.data with
      | some t => .vnum (parse_decimal t)
      | none => .vnull
  | _ => .vnull

/-! ## The record set -/

/-- A row: column-name-keyed cells, kept in column order. -/
abbrev Row := List (String × Val)

/-- Read a cell (the first cell of that column); a missing key is pandas
NaN. -/
def getVal (r : Row) (c : String) : Val :=
  match r with
  | [] => .vnull
  | p :: rest => if p.1 = c then p.2 else getVal rest c

/-- Whether the row has a cell for column `c`. -/
def hasKey (r : Row) (c : String) : Bool :=
  match r with
  | [] => false
  | p :: rest => p.1 = c || hasKey rest c

/-- Write a cell, appending the column to the row if absent. -/
def setVal (r : Row) (c : String) (v : Val) : Row :=
  if hasKey r c then r.map (fun p => if p.1 = c then (c, v) else p)
  else r ++ [(c, v)]

/-- Remove a column's cell from the row. -/
def dropKey (r : Row) (c : String) : Row :=
  r.filter (fun p => p.1 != c)

/-- The record set: ordered column names, plus rows labelled with their
pandas index label — the original load position, which boolean-mask
filtering preserves (the script never resets the index). -/
structure DF where
  cols : List String
  rows : List (Nat × Row)

/-- Column assignment `df[c] = vals`, values aligned positionally with the
current rows (the assigned series is always derived from the same frame). -/
def DF.setCol (df : DF) (c : String) (vals : List Val) : DF :=
  ⟨if c ∈ df.cols then df.cols else df.cols ++ [c],
   (df.rows.zip vals).map fun rv => (rv.1.1, setVal rv.1.2 c rv.2)⟩

/-- `df.drop` of one column, with absence ignored (each use in the script
either passes the ignore flag or is guarded by a presence check). -/
def DF.dropCol (df : DF) (c : String) : DF :=
  ⟨df.cols.filter (fun x => x != c), df.rows.map fun r => (r.1, dropKey r.2 c)⟩

/-- The index labels of the current rows. -/
def labelsOf (df : DF) : List Nat := df.rows.map (fun r => r.1)

/-- The values of one column, in row order. -/
def colVals (df : DF) (c : String) : List Val :=
  df.rows.map (fun r => getVal r.2 c)

/-! ## The six pipeline stages -/

/-- `VALID_PROPERTY_TYPES`. -/
def VALID_PROPERTY_TYPES : List String := ["apartment", "house"]

/-- `DataProcessor.log_errors`: when at least one row satisfies the
condition, emit one line `<message> Indices: <...>`.  The code joins
`condition.index` — the labels of *all* rows of the current record set —
not only the labels of the rows satisfying the condition. -/
def log_errors (cond : List (Nat × Bool)) (message : String) : List String :=
  if cond.any (fun p => p.2) then
    [message ++ " Indices: " ++ String.intercalate ", " (cond.map (fun p => toString p.1))]
  else []

/-- Modelled from the spec: a log call records the static message plus the
identifiers of the rows that violate the rule.  Defined only for
comparison with `log_errors`. -/
def log_errors_spec (cond : List (Nat × Bool)) (message : String) : List String :=
  if cond.any (fun p => p.2) then
    [message ++ " Indices: " ++
      String.intercalate ", " ((cond.filter (fun p => p.2)).map (fun p => toString p.1))]
  else []

/-- `validate_id_column`: log rows with a null `id`, then log rows whose
`id` printed via `astype(str)` is not all digits; the rows are untouched.
A missing `id` column raises KeyError. -/
def validate_id_column (df : DF) : Except PyErr (DF × List String) :=
  if "id" ∈ df.cols then
    .ok (df,
      log_errors (df.rows.map fun r => (r.1, (getVal r.2 "id").isnull)) "Null IDs found." ++
      log_errors (df.rows.map fun r => (r.1, !py_isnumeric (py_str (getVal r.2 "id"))))
        "ID is not a string or numeric.")
  else .error (.keyError "id")

/-- `validate_clean_price`: when `raw_price` exists, overwrite `price`
with the regex extraction of each `raw_price`, log if any extraction came
out null, then drop `raw_price`; when it does not exist, log one plain
line and leave the frame unchanged.  The `.str` accessor requires an
object column that holds strings: a non-empty `raw_price` column with no
string cell at all raises AttributeError. -/
def validate_clean_price (df : DF) : Except PyErr (DF × List String) :=
  if "raw_price" ∈ df.cols then
    if df.rows.isEmpty || df.rows.any (fun r =>
        match getVal r.2 "raw_price" with | .vstr _ => true | _ => false) then
      let extracted := df.rows.map fun r => (r.1, extract_price (getVal r.2 "raw_price"))
      .ok ((df.setCol "price" (extracted.map fun p => p.2)).dropCol "raw_price",
        log_errors (extracted.map fun p => (p.1, (p.2).isnull)) "Invalid or null prices found.")
    else .error .attributeError
  else .ok (df, ["raw_price column missing."])

/-- `validate_living_area`: log every row whose `living_area` is outside
`[10, 500]` (null counts as outside), then keep exactly the rows inside.
A string cell raises TypeError from the comparison. -/
def validate_living_area (df : DF) : Except PyErr (DF × List String) :=
  if "living_area" ∈ df.cols then
    if df.rows.all (fun r => numOK (getVal r.2 "living_area")) then
      .ok (⟨df.cols, df.rows.filter fun r => area_ok (getVal r.2 "living_area")⟩,
        log_errors (df.rows.map fun r => (r.1, !area_ok (getVal r.2 "living_area")))
          "Invalid living_area values.")
    else .error .typeError
  else .error (.keyError "living_area")

/-- `filter_by_price_per_sqm`: keep rows whose `price / living_area` lies
in `[500, 15000]`, silently; string cells raise TypeError. -/
def filter_by_price_per_sqm (df : DF) : Except PyErr (DF × List String) :=
  if "price" ∈ df.cols then
    if "living_area" ∈ df.cols then
      if df.rows.all (fun r =>
          numOK (getVal r.2 "price") && numOK (getVal r.2 "living_area")) then
        .ok (⟨df.cols, df.rows.filter fun r =>
          ratio_between (getVal r.2 "price") (getVal r.2 "living_area")⟩, [])
      else .error .typeError
    else .error (.keyError "living_area")
  else .error (.keyError "price")

/-- `validate_property_type`: log rows whose `property_type` is not
`apartment`/`house`; the rows are untouched. -/
def validate_property_type (df : DF) : Except PyErr (DF × List String) :=
  if "property_type" ∈ df.cols then
    .ok (df, log_errors
      (df.rows.map fun r => (r.1, !isin_strs (getVal r.2 "property_type") VALID_PROPERTY_TYPES))
      "Invalid property types. Only \x27apartment\x27 or \x27house\x27 are allowed.")
  else .error (.keyError "property_type")

/-- `validate_scraping_date`: log rows whose `scraping_date`, printed via
`astype(str)`, does not match `YYYY-MM-DD`; the rows are untouched. -/
def validate_scraping_date (df : DF) : Except PyErr (DF × List String) :=
  if "scraping_date" ∈ df.cols then
    .ok (df, log_errors
      (df.rows.map fun r => (r.1, !date_match (py_str (getVal r.2 "scraping_date"))))
      "Invalid date formats in scraping_date. Expected format \x27YYYY-MM-DD\x27.")
  else .error (.keyError "scraping_date")

/-- `validate_and_clean`: the six stages in the order the code calls them —
id check, price cleaning, living-area validation, price-per-sqm filter,
property-type check, scraping-date check — accumulating their log lines. -/
def validate_and_clean (df : DF) : Except PyErr (DF × List String) := do
  let r1 ← validate_id_column df
  let r2 ← validate_clean_price r1.1
  let r3 ← validate_living_area r2.1
  let r4 ← filter_by_price_per_sqm r3.1
  let r5 ← validate_property_type r4.1
  let r6 ← validate_scraping_date r5.1
  .ok (r6.1, r1.2 ++ r2.2 ++ r3.2 ++ r4.2 ++ r5.2 ++ r6.2)

/-- Run a list of pipeline stages in order, threading the record set and
concatenating the logs. -/
def runStages : List (DF → Except PyErr (DF × List String)) → DF →
    Except PyErr (DF × List String)
  | [], df => .ok (df, [])
  | s :: rest, df => do
    let r ← s df
    let r2 ← runStages rest r.1
    .ok (r2.1, r.2 ++ r2.2)

/-- The pipeline in the order the specification lists the stages — the
price-per-area filter as stage 3 and living-area validation as stage 4.
Defined only for comparison with `validate_and_clean`. -/
def validate_and_clean_spec (df : DF) : Except PyErr (DF × List String) := do
  let r1 ← validate_id_column df
  let r2 ← validate_clean_price r1.1
  let r3 ← filter_by_price_per_sqm r2.1
  let r4 ← validate_living_area r3.1
  let r5 ← validate_property_type r4.1
  let r6 ← validate_scraping_date r5.1
  .ok (r6.1, r1.2 ++ r2.2 ++ r3.2 ++ r4.2 ++ r5.2 ++ r6.2)

/-! ## Loading -/

/-- Convert a parsed JSON value to a cell value. -/
def JVal.toVal : JVal → Val
  | .jnull => .vnull
  | .jbool b => .vbool b
  | .jnum q => .vnum q
  | .jstr s => .vstr s
  | j => .vcoll j

/-- Column set of a list of JSON row objects: keys in first-appearance
order. -/
def collectCols (rows : List (List (String × JVal))) : List String :=
  rows.foldl (fun acc r =>
    r.foldl (fun a kv => if kv.1 ∈ a then a else a ++ [kv.1]) acc) []

/-- `pd.DataFrame(data_list)` on a list of JSON objects: the columns are
the union of keys in first-appearance order, the rows are labelled 0,1,…
in order, and a missing key is NaN.  A list whose elements are not all
objects is outside the modelled fragment. -/
def buildDF (xs : List JVal) : Except PyErr DF :=
  match xs.mapM (fun j => match j with | .jobj kvs => some kvs | _ => none) with
  | some objRows =>
    let cols := collectCols objRows
    .ok ⟨cols, (List.range objRows.length).zip (objRows.map (fun r =>
        cols.map (fun c => (c, (match r.find? (fun kv => kv.1 == c) with
          | some kv => kv.2.toVal | none => .vnull)))))⟩
  | none => .error .typeError

/-- Full-string numeric-literal shape for CSV type inference:
`[-]digits[.digits]`. -/
def csvNumShape (cs : List Char) : Bool :=
  let cs1 := match cs with | '-' :: r => r | _ => cs
  match cs1.takeWhile Char.isDigit, cs1.dropWhile Char.isDigit with
  | _ :: _, [] => true
  | _ :: _, '.' :: fs => !fs.isEmpty && fs.all Char.isDigit
  | _, _ => false

/-- Numeric value of a CSV numeric literal. -/
def csvNumVal (cs : List Char) : ℚ :=
  match cs with
  | '-' :: r => -(parse_decimal r)
  | _ => parse_decimal cs

/-- `pd.read_csv` on the source text, for the fragment the script relies
on: the first line is the header, fields split on commas, a column is
numeric when every non-empty field in it is a numeric literal (pandas
infers dtype per column), and empty fields are NaN. -/
def read_csv (content : String) : Except PyErr DF :=
  match ((splitOnChar '\n' content.data).map String.mk).filter (fun l => l != "") with
  | [] => .error (.valueError "No columns to parse from file")
  | header :: rest =>
    let cols := (splitOnChar ',' header.data).map String.mk
    let rawRows := rest.map (fun line => (splitOnChar ',' line.data).map String.mk)
    let numericCol : Nat → Bool := fun i =>
      rawRows.all (fun fields =>
        let f := fields.getD i ""
        f = "" || csvNumShape f.data)
    .ok ⟨cols, (List.range rawRows.length).zip (rawRows.map (fun fields =>
      cols.enum.map (fun ic =>
        let f := fields.getD ic.1 ""
        (ic.2, if f = "" then Val.vnull
               else if numericCol ic.1 then Val.vnum (csvNumVal f.data)
               else Val.vstr f))))⟩

/-- `DataProcessor.load_data`, given the (already extracted) file suffix
and the file text.  JSON path: the code runs
`json.loads(json.loads(content))` and catches only `json.JSONDecodeError`,
so when the first parse yields a non-string (e.g. a plain JSON array) the
outer `json.loads` raises an uncaught TypeError; the plain-parse fallback
runs only when the inner parse itself failed.  A successfully loaded JSON
list becomes a frame with `municipality` dropped (absence ignored).  The
`.avro` branch calls `pd.read_avro`, which pandas does not define
(AttributeError). -/
def load_data (ext : String) (content : String) : Except PyErr DF :=
  let file_ext := lowerStr ext
  if file_ext = ".json" then
    let firstAttempt : Except PyErr JVal :=
      match json_parse content with
      | .ok (.jstr s) => json_parse s
      | .ok _ => .error .typeError
      | .error e => .error e
    let data_list : Except PyErr JVal :=
      match firstAttempt with
      | .error .jsonDecodeError =>
        (match json_parse content with
         | .ok v => .ok v
         | .error _ => .error (.valueError "Unable to parse the provided JSON data."))
      | other => other
    match data_list with
    | .error e => .error e
    | .ok (.jarr xs) =>
      (match buildDF xs with
       | .ok df => .ok (df.dropCol "municipality")
       | .error e => .error e)
    | .ok _ => .error (.valueError "JSON content does not represent a list structure.")
  else if file_ext = ".csv" then read_csv content
  else if file_ext = ".avro" then .error .attributeError
  else .error (.valueError ("Unsupported file format: " ++ file_ext))


/-! ## Concrete record sets and inputs -/

/-- A fully valid listing row (the spec scenario row "1": ratio 2000,
area 100). -/
def row0 : Nat × Row :=
  (0, [("id", .vnum 1), ("price", .vnum 200000), ("living_area", .vnum 100),
       ("property_type", .vstr "apartment"), ("scraping_date", .vstr "2023-01-01")])

/-- The spec scenario row "2": ratio 0.5 (dropped by the filter), with a
bad property type and date. -/
def row1 : Nat × Row :=
  (1, [("id", .vnum 2), ("price", .vnum 50), ("living_area", .vnum 100),
       ("property_type", .vstr "castle"), ("scraping_date", .vstr "bad-date")])

/-- The spec scenario input, already loaded. -/
def dfGood : DF :=
  ⟨["id", "price", "living_area", "property_type", "scraping_date"], [row0, row1]⟩

/-- The pipeline record-set output on `dfGood`. -/
def dfGoodOut : DF :=
  ⟨["id", "price", "living_area", "property_type", "scraping_date"], [row0]⟩

/-- A single row whose living area (1000) and ratio (0.005) are both out
of range: the two candidate stage orders log differently on it. -/
def dfOrder : DF :=
  ⟨["id", "price", "living_area", "property_type", "scraping_date"],
   [(0, [("id", .vnum 1), ("price", .vnum 5), ("living_area", .vnum 1000),
         ("property_type", .vstr "apartment"), ("scraping_date", .vstr "2023-01-01")])]⟩

/-- The (empty) record set both stage orders leave of `dfOrder`. -/
def dfOrderOut : DF :=
  ⟨["id", "price", "living_area", "property_type", "scraping_date"], []⟩

/-- Two rows of which only row 0 violates the null-id rule. -/
def dfC4 : DF := ⟨["id"], [(0, [("id", .vnull)]), (1, [("id", .vstr "7")])]⟩

/-- A frame with a `raw_price` column: row 0 extracts to 1234.50, row 1
has no digits to extract. -/
def dfRaw : DF :=
  ⟨["id", "raw_price", "living_area", "property_type", "scraping_date"],
   [(0, [("id", .vnum 1), ("raw_price", .vstr "€ 1234.50 per month"), ("living_area", .vnum 1),
         ("property_type", .vstr "house"), ("scraping_date", .vstr "2023-01-01")]),
    (1, [("id", .vnum 2), ("raw_price", .vstr "no digits"), ("living_area", .vnum 100),
         ("property_type", .vstr "house"), ("scraping_date", .vstr "2023-01-01")])]⟩

/-- The record set `validate_clean_price` leaves of `dfRaw`. -/
def dfRawOut : DF :=
  ⟨["id", "living_area", "property_type", "scraping_date", "price"],
   [(0, [("id", .vnum 1), ("living_area", .vnum 1),
         ("property_type", .vstr "house"), ("scraping_date", .vstr "2023-01-01"),
         ("price", .vnum (2469 / 2))]),
    (1, [("id", .vnum 2), ("living_area", .vnum 100),
         ("property_type", .vstr "house"), ("scraping_date", .vstr "2023-01-01"),
         ("price", .vnull)])]⟩

/-- Two rows of which only row 0 violates the living-area rule. -/
def dfArea : DF :=
  ⟨["living_area"], [(0, [("living_area", .vnum 1000)]), (1, [("living_area", .vnum 100)])]⟩

/-- The record set `validate_living_area` leaves of `dfArea`. -/
def dfAreaOut : DF := ⟨["living_area"], [(1, [("living_area", .vnum 100)])]⟩

/-- The file text `[{"id": 1}]`: a plain JSON array of one row object. -/
def jsonPlain : String := "[\x7b\"id\": 1\x7d]"

/-- The same content wrapped in one extra layer of string encoding. -/
def jsonDouble : String := "\"[\x7b\\\"id\\\": 1\x7d]\""

/-- Double-encoded JSON whose row object carries a `municipality` field. -/
def jsonDoubleMuni : String :=
  "\"[\x7b\\\"id\\\": 1, \\\"municipality\\\": \\\"zurich\\\"\x7d]\""

/-- The record set the double-encoded inputs load to (`municipality`
dropped where present). -/
def dfLoaded : DF := ⟨["id"], [(0, [("id", .vnum 1)])]⟩

/-- CSV input with a `municipality` column. -/
def csvMuni : String := "id,municipality\n1,zurich"

/-- The record set `csvMuni` loads to: `municipality` survives. -/
def dfCsv : DF :=
  ⟨["id", "municipality"], [(0, [("id", .vnum 1), ("municipality", .vstr "zurich")])]⟩

/-! ## Helper lemmas -/

theorem exceptBind_ok {ε α β : Type} {x : Except ε α} {f : α → Except ε β} {b : β}
    (h : (x >>= f) = .ok b) : ∃ a, x = .ok a ∧ f a = .ok b := by
  cases x with
  | error e => exact Except.noConfusion (show Except.error e = Except.ok b from h)
  | ok a => exact ⟨a, rfl, show f a = .ok b from h⟩

theorem zip_self_map {α β : Type} (l : List α) (f : α → β) :
    l.zip (l.map f) = l.map (fun x => (x, f x)) := by
  induction l with
  | nil => rfl
  | cons x xs ih => simpa using ih

theorem isnull_iff {v : Val} : v.isnull = true ↔ v = .vnull := by
  cases v <;> simp [Val.isnull]

theorem getVal_dropKey_ne (r : Row) {c d : String} (h : c ≠ d) :
    getVal (dropKey r d) c = getVal r c := by
  induction r with
  | nil => rfl
  | cons p r ih =>
    by_cases hpd : p.1 = d
    · have hb : (p.1 != d) = false := by simp [bne_iff_ne, hpd]
      have hpc : p.1 ≠ c := fun hc => h (hc ▸ hpd)
      simp only [dropKey, List.filter_cons, hb]
      rw [show getVal (p :: r) c = getVal r c by simp [getVal, hpc]]
      exact ih
    · have hb : (p.1 != d) = true := by simp [bne_iff_ne, hpd]
      have hstep : dropKey (p :: r) d = p :: dropKey r d := by
        simp [dropKey, List.filter_cons, hb]
      rw [hstep]
      by_cases hpc : p.1 = c
      · simp [getVal, hpc]
      · rw [show getVal (p :: r) c = getVal r c by simp [getVal, hpc]]
        rw [show getVal (p :: dropKey r d) c = getVal (dropKey r d) c by
              simp [getVal, hpc]]
        exact ih

theorem getVal_map_set (r : Row) (c : String) (v : Val) (h : hasKey r c = true) :
    getVal (r.map (fun p => if p.1 = c then (c, v) else p)) c = v := by
  induction r with
  | nil => simp [hasKey] at h
  | cons p r ih =>
    by_cases hp : p.1 = c
    · simp [getVal, hp]
    · have h' : hasKey r c = true := by simpa [hasKey, hp] using h
      simpa [getVal, hp] using ih h'

theorem getVal_append_self (r : Row) (c : String) (v : Val) (h : hasKey r c = false) :
    getVal (r ++ [(c, v)]) c = v := by
  induction r with
  | nil => simp [getVal]
  | cons p r ih =>
    have hp : p.1 ≠ c := by
      intro hc
      simp [hasKey, hc] at h
    have h' : hasKey r c = false := by simpa [hasKey, hp] using h
    simpa [getVal, hp] using ih h'

theorem getVal_setVal_self (r : Row) (c : String) (v : Val) :
    getVal (setVal r c v) c = v := by
  unfold setVal
  by_cases h : hasKey r c
  · simp only [h, if_true]
    exact getVal_map_set r c v h
  · simp only [Bool.not_eq_true] at h
    simp only [h, Bool.false_eq_true, if_false]
    exact getVal_append_self r c v h

/-! ## Stage inversion lemmas -/

theorem vic_ok {df : DF} {r : DF × List String}
    (h : validate_id_column df = .ok r) : r.1 = df ∧ "id" ∈ df.cols := by
  unfold validate_id_column at h
  split at h
  · refine ⟨?_, by assumption⟩
    cases h
    rfl
  · cases h

theorem vcp_ok {df : DF} {r : DF × List String}
    (h : validate_clean_price df = .ok r) :
    ("raw_price" ∈ df.cols ∧
      r.1 = (df.setCol "price" ((df.rows.map fun row =>
               (row.1, extract_price (getVal row.2 "raw_price"))).map fun p => p.2)).dropCol
              "raw_price" ∧
      r.2 = log_errors ((df.rows.map fun row =>
               (row.1, extract_price (getVal row.2 "raw_price"))).map fun p =>
                 (p.1, (p.2).isnull)) "Invalid or null prices found.")
    ∨ ("raw_price" ∉ df.cols ∧ r.1 = df ∧ r.2 = ["raw_price column missing."]) := by
  unfold validate_clean_price at h
  split at h
  · split at h
    · left
      refine ⟨by assumption, ?_, ?_⟩
      · cases h; rfl
      · cases h; rfl
    · cases h
  · right
    refine ⟨by assumption, ?_, ?_⟩
    · cases h; rfl
    · cases h; rfl

theorem vla_ok {df : DF} {r : DF × List String}
    (h : validate_living_area df = .ok r) :
    "living_area" ∈ df.cols ∧
    r.1.cols = df.cols ∧
    r.1.rows = df.rows.filter (fun row => area_ok (getVal row.2 "living_area")) ∧
    r.2 = log_errors (df.rows.map fun row => (row.1, !area_ok (getVal row.2 "living_area")))
            "Invalid living_area values." := by
  unfold validate_living_area at h
  split at h
  · split at h
    · cases h
      exact ⟨by assumption, rfl, rfl, rfl⟩
    · cases h
  · cases h

theorem fps_ok {df : DF} {r : DF × List String}
    (h : filter_by_price_per_sqm df = .ok r) :
    "price" ∈ df.cols ∧ "living_area" ∈ df.cols ∧
    r.1.cols = df.cols ∧
    r.1.rows = df.rows.filter (fun row =>
      ratio_between (getVal row.2 "price") (getVal row.2 "living_area")) ∧
    r.2 = [] := by
  unfold filter_by_price_per_sqm at h
  split at h
  · split at h
    · split at h
      · cases h
        exact ⟨by assumption, by assumption, rfl, rfl, rfl⟩
      · cases h
    · cases h
  · cases h

theorem vpt_ok {df : DF} {r : DF × List String}
    (h : validate_property_type df = .ok r) : r.1 = df ∧ "property_type" ∈ df.cols := by
  unfold validate_property_type at h
  split at h
  · refine ⟨?_, by assumption⟩
    cases h
    rfl
  · cases h

theorem vsd_ok {df : DF} {r : DF × List String}
    (h : validate_scraping_date df = .ok r) : r.1 = df ∧ "scraping_date" ∈ df.cols := by
  unfold validate_scraping_date at h
  split at h
  · refine ⟨?_, by assumption⟩
    cases h
    rfl
  · cases h

theorem vac_decomp {df : DF} {out : DF × List String}
    (h : validate_and_clean df = .ok out) :
    ∃ r1 r2 r3 r4 r5 r6,
      validate_id_column df = .ok r1 ∧
      validate_clean_price r1.1 = .ok r2 ∧
      validate_living_area r2.1 = .ok r3 ∧
      filter_by_price_per_sqm r3.1 = .ok r4 ∧
      validate_property_type r4.1 = .ok r5 ∧
      validate_scraping_date r5.1 = .ok r6 ∧
      out = (r6.1, r1.2 ++ r2.2 ++ r3.2 ++ r4.2 ++ r5.2 ++ r6.2) := by
  unfold validate_and_clean at h
  obtain ⟨r1, h1, h⟩ := exceptBind_ok h
  obtain ⟨r2, h2, h⟩ := exceptBind_ok h
  obtain ⟨r3, h3, h⟩ := exceptBind_ok h
  obtain ⟨r4, h4, h⟩ := exceptBind_ok h
  obtain ⟨r5, h5, h⟩ := exceptBind_ok h
  obtain ⟨r6, h6, h⟩ := exceptBind_ok h
  refine ⟨r1, r2, r3, r4, r5, r6, h1, h2, h3, h4, h5, h6, ?_⟩
  cases h
  rfl

/-! ## Frame-level helper lemmas -/

theorem mem_setCol_cols {df : DF} {c x : String} {vals : List Val} :
    x ∈ (df.setCol c vals).cols ↔ (x ∈ df.cols ∨ x = c) := by
  unfold DF.setCol
  by_cases h : c ∈ df.cols
  · rw [if_pos h]
    constructor
    · exact fun hx => Or.inl hx
    · rintro (hx | rfl)
      · exact hx
      · exact h
  · rw [if_neg h]
    simp

theorem mem_dropCol_cols {df : DF} {c x : String} :
    x ∈ (df.dropCol c).cols ↔ (x ∈ df.cols ∧ x ≠ c) := by
  unfold DF.dropCol
  simp [List.mem_filter, bne_iff_ne]

theorem labelsOf_dropCol (df : DF) (c : String) :
    labelsOf (df.dropCol c) = labelsOf df := by
  simp [labelsOf, DF.dropCol, List.map_map, Function.comp]

theorem rows_setCol_map (df : DF) (c : String) (g : Nat × Row → Val) :
    (df.setCol c (df.rows.map g)).rows =
      df.rows.map (fun r => (r.1, setVal r.2 c (g r))) := by
  unfold DF.setCol
  rw [zip_self_map]
  simp [List.map_map, Function.comp]

theorem labelsOf_setCol_map (df : DF) (c : String) (g : Nat × Row → Val) :
    labelsOf (df.setCol c (df.rows.map g)) = labelsOf df := by
  rw [show labelsOf (df.setCol c (df.rows.map g)) =
        (df.setCol c (df.rows.map g)).rows.map (fun r => r.1) from rfl]
  rw [rows_setCol_map]
  simp [labelsOf, List.map_map, Function.comp]

/-! ## Value-shape lemmas for the two filtering predicates -/

theorem area_ok_shape {v : Val} (h : area_ok v = true) :
    ∃ a : ℚ, v = .vnum a ∧ 10 ≤ a ∧ a ≤ 500 := by
  cases v with
  | vnum a =>
      have h' := of_decide_eq_true (by simpa [area_ok, asNumT] using h)
      exact ⟨a, rfl, h'.1, h'.2⟩
  | vbool b => cases b <;> norm_num [area_ok, asNumT] at h
  | vnull => simp [area_ok, asNumT] at h
  | vstr s => simp [area_ok, asNumT] at h
  | vcoll j => simp [area_ok, asNumT] at h

theorem ratio_shape {pv : Val} {a : ℚ} (ha : 10 ≤ a)
    (h : ratio_between pv (.vnum a) = true) :
    ∃ p : ℚ, pv = .vnum p ∧ 500 ≤ p / a ∧ p / a ≤ 15000 := by
  have ha0 : (0 : ℚ) < a := by linarith
  have hne : ¬(a = 0) := by linarith
  cases pv with
  | vnum p =>
      simp only [ratio_between, asNumT, if_neg hne, decide_eq_true_eq] at h
      exact ⟨p, rfl, h.1, h.2⟩
  | vbool b =>
      exfalso
      cases b with
      | true =>
          simp only [ratio_between, asNumT, if_true, if_neg hne, decide_eq_true_eq] at h
          have h1 := h.1
          rw [le_div_iff ha0] at h1
          nlinarith
      | false =>
          simp only [ratio_between, asNumT, if_false, if_neg hne, decide_eq_true_eq] at h
          have h1 := h.1
          rw [le_div_iff ha0] at h1
          norm_num at h1
          nlinarith
  | vnull => simp [ratio_between, asNumT] at h
  | vstr s => simp [ratio_between, asNumT] at h
  | vcoll j => simp [ratio_between, asNumT] at h

/-- The surviving rows of a full pipeline run all carry a numeric price
and a numeric living area with the two business ranges satisfied. -/
theorem pipeline_rows_strong {df df2 : DF} {logs : List String}
    (h : validate_and_clean df = .ok (df2, logs)) :
    ∀ r ∈ df2.rows, ∃ p a : ℚ,
      getVal r.2 "price" = .vnum p ∧ getVal r.2 "living_area" = .vnum a ∧
      10 ≤ a ∧ a ≤ 500 ∧ 500 ≤ p / a ∧ p / a ≤ 15000 := by
  obtain ⟨r1, r2, r3, r4, r5, r6, h1, h2, h3, h4, h5, h6, hout⟩ := vac_decomp h
  have e5 := (vpt_ok h5).1
  have e6 := (vsd_ok h6).1
  have hdf2 : df2 = r6.1 := congrArg Prod.fst hout
  intro r hr
  rw [hdf2, e6, e5] at hr
  obtain ⟨-, -, -, hrows4, -⟩ := fps_ok h4
  rw [hrows4] at hr
  obtain ⟨hr3, hpred⟩ := List.mem_filter.mp hr
  obtain ⟨-, -, hrows3, -⟩ := vla_ok h3
  rw [hrows3] at hr3
  obtain ⟨hr2, hareapred⟩ := List.mem_filter.mp hr3
  obtain ⟨a, hav, ha10, ha500⟩ := area_ok_shape hareapred
  rw [hav] at hpred
  obtain ⟨p, hpv, hr500, hr15000⟩ := ratio_shape ha10 hpred
  exact ⟨p, a, hpv, hav, ha10, ha500, hr500, hr15000⟩

theorem exceptBind_ok_eq {ε α β : Type} (a : α) (f : α → Except ε β) :
    ((Except.ok a : Except ε α) >>= f) = f a := rfl

theorem exceptBind_err_eq {ε α β : Type} (e : ε) (f : α → Except ε β) :
    ((Except.error e : Except ε α) >>= f) = Except.error e := rfl

theorem ratio_nonnull {pv av : Val} (h : ratio_between pv av = true) :
    pv ≠ .vnull ∧ av ≠ .vnull := by
  cases pv <;> cases av <;> simp_all [ratio_between, asNumT]

theorem regex_first_num_none {cs : List Char} (h : ∀ c ∈ cs, c.isDigit = false) :
    regex_first_num cs = none := by
  induction cs with
  | nil => rfl
  | cons c rest ih =>
    have hc : c.isDigit = false := h c (by simp)
    simp only [regex_first_num, hc, Bool.false_eq_true, if_false]
    exact ih (fun x hx => h x (List.mem_cons_of_mem _ hx))

theorem any_map_general {α β : Type} (l : List α) (f : α → β) (p : β → Bool) :
    (l.map f).any p = l.any (fun a => p (f a)) := by
  induction l with
  | nil => rfl
  | cons x xs ih => simp [List.any_cons, ih]

/-! ## The claims -/

/-- C1: after the full six-stage pipeline has run, every row of the final
record set has a numeric price and living area with
`500 ≤ price / living_area ≤ 15000` and `10 ≤ living_area ≤ 500`. -/
theorem pipeline_final_rows_in_range (df df2 : DF) (logs : List String)
    (h : validate_and_clean df = .ok (df2, logs)) :
    ∀ r ∈ df2.rows, ∃ p a : ℚ,
      getVal r.2 "price" = .vnum p ∧ getVal r.2 "living_area" = .vnum a ∧
      500 ≤ p / a ∧ p / a ≤ 15000 ∧ 10 ≤ a ∧ a ≤ 500 := by
  intro r hr
  obtain ⟨p, a, hp, ha, h10, h500, hr1, hr2⟩ := pipeline_rows_strong h r hr
  exact ⟨p, a, hp, ha, hr1, hr2, h10, h500⟩

unseal Rat.mul Rat.inv Rat.add Rat.sub in
/-- Witness for C1 at the spec scenario input: its surviving row. -/
theorem pipeline_final_rows_in_range_witness :
    ∃ p a : ℚ,
      getVal row0.2 "price" = .vnum p ∧ getVal row0.2 "living_area" = .vnum a ∧
      500 ≤ p / a ∧ p / a ≤ 15000 ∧ 10 ≤ a ∧ a ≤ 500 :=
  pipeline_final_rows_in_range dfGood dfGoodOut ["raw_price column missing."] (by rfl) row0
    (by simp [dfGoodOut])

/-- C9: no surviving row of a full pipeline run has a null price or null
living area; a null living area is removed by living-area validation and a
null price by the price-per-area filter. -/
theorem pipeline_survivors_nonnull :
    (∀ (df df2 : DF) (logs : List String), validate_and_clean df = .ok (df2, logs) →
      ∀ r ∈ df2.rows, getVal r.2 "price" ≠ .vnull ∧ getVal r.2 "living_area" ≠ .vnull) ∧
    (∀ (df df2 : DF) (logs : List String), validate_living_area df = .ok (df2, logs) →
      ∀ r ∈ df2.rows, getVal r.2 "living_area" ≠ .vnull) ∧
    (∀ (df df2 : DF) (logs : List String), filter_by_price_per_sqm df = .ok (df2, logs) →
      ∀ r ∈ df2.rows, getVal r.2 "price" ≠ .vnull) := by
  refine ⟨?_, ?_, ?_⟩
  · intro df df2 logs h r hr
    obtain ⟨p, a, hp, ha, -, -, -, -⟩ := pipeline_rows_strong h r hr
    rw [hp, ha]
    exact ⟨by simp, by simp⟩
  · intro df df2 logs h r hr
    obtain ⟨-, -, hrows, -⟩ := vla_ok h
    have hrows' : df2.rows = df.rows.filter
        (fun row => area_ok (getVal row.2 "living_area")) := hrows
    rw [hrows'] at hr
    obtain ⟨-, hpred⟩ := List.mem_filter.mp hr
    obtain ⟨a, hav, -, -⟩ := area_ok_shape hpred
    rw [hav]
    simp
  · intro df df2 logs h r hr
    obtain ⟨-, -, -, hrows, -⟩ := fps_ok h
    have hrows' : df2.rows = df.rows.filter (fun row =>
        ratio_between (getVal row.2 "price") (getVal row.2 "living_area")) := hrows
    rw [hrows'] at hr
    obtain ⟨-, hpred⟩ := List.mem_filter.mp hr
    exact (ratio_nonnull hpred).1

unseal Rat.mul Rat.inv Rat.add Rat.sub in
/-- Witness for C9 at the spec scenario input: its surviving row. -/
theorem pipeline_survivors_nonnull_witness :
    getVal row0.2 "price" ≠ .vnull ∧ getVal row0.2 "living_area" ≠ .vnull :=
  pipeline_survivors_nonnull.1 dfGood dfGoodOut ["raw_price column missing."] (by rfl) row0
    (by simp [dfGoodOut])

/-- C7: the pipeline only removes rows or rewrites columns: the index
labels of the final record set form an ordered sublist of the input's
labels, so surviving rows keep their original relative order. -/
theorem pipeline_preserves_row_order (df df2 : DF) (logs : List String)
    (h : validate_and_clean df = .ok (df2, logs)) :
    List.Sublist (labelsOf df2) (labelsOf df) := by
  obtain ⟨r1, r2, r3, r4, r5, r6, h1, h2, h3, h4, h5, h6, hout⟩ := vac_decomp h
  have hdf2 : df2 = r6.1 := congrArg Prod.fst hout
  have e1 : r1.1 = df := (vic_ok h1).1
  have e2 : labelsOf r2.1 = labelsOf r1.1 := by
    rcases vcp_ok h2 with ⟨-, hdf, -⟩ | ⟨-, hdf, -⟩
    · rw [hdf]
      rw [show ((r1.1.rows.map fun row => (row.1, extract_price (getVal row.2 "raw_price"))).map
            fun p => p.2) = r1.1.rows.map (fun row => extract_price (getVal row.2 "raw_price"))
          by simp [List.map_map]]
      rw [labelsOf_dropCol, labelsOf_setCol_map]
    · rw [hdf]
  have s3 : List.Sublist (labelsOf r3.1) (labelsOf r2.1) := by
    obtain ⟨-, -, hrows, -⟩ := vla_ok h3
    unfold labelsOf
    rw [hrows]
    exact List.Sublist.map _ (List.filter_sublist _)
  have s4 : List.Sublist (labelsOf r4.1) (labelsOf r3.1) := by
    obtain ⟨-, -, -, hrows, -⟩ := fps_ok h4
    unfold labelsOf
    rw [hrows]
    exact List.Sublist.map _ (List.filter_sublist _)
  have e5 : r5.1 = r4.1 := (vpt_ok h5).1
  have e6 : r6.1 = r5.1 := (vsd_ok h6).1
  rw [hdf2, e6, e5]
  have heq : labelsOf r2.1 = labelsOf df := by rw [e2, e1]
  exact heq ▸ (s4.trans s3)

unseal Rat.mul Rat.inv Rat.add Rat.sub in
/-- Witness for C7 at the spec scenario input. -/
theorem pipeline_preserves_row_order_witness :
    List.Sublist (labelsOf dfGoodOut) (labelsOf dfGood) :=
  pipeline_preserves_row_order dfGood dfGoodOut ["raw_price column missing."] (by rfl)

/-- C6: the id check, the property-type check and the scraping-date check
never remove or modify any row: whenever one of them succeeds, the record
set it returns is the one it was given. -/
theorem log_only_stages_preserve_rows :
    (∀ (df : DF) (r : DF × List String), validate_id_column df = .ok r → r.1 = df) ∧
    (∀ (df : DF) (r : DF × List String), validate_property_type df = .ok r → r.1 = df) ∧
    (∀ (df : DF) (r : DF × List String), validate_scraping_date df = .ok r → r.1 = df) :=
  ⟨fun _ _ h => (vic_ok h).1, fun _ _ h => (vpt_ok h).1, fun _ _ h => (vsd_ok h).1⟩

/-- Witness for C6: the id check run on the scenario input returns the
record set unchanged. -/
theorem log_only_stages_preserve_rows_witness :
    ((dfGood, ([] : List String)) : DF × List String).1 = dfGood :=
  log_only_stages_preserve_rows.1 dfGood (dfGood, []) (by rfl)

/-- C10: a successful full pipeline run requires the columns `id`,
`living_area`, `property_type`, `scraping_date` and one of
`price`/`raw_price` to be present (their absence makes some stage raise,
aborting the run); only a missing `raw_price` with `price` present is
tolerated, producing the single log line and leaving the record set
unchanged. -/
theorem pipeline_requires_columns :
    (∀ (df : DF) (r : DF × List String), validate_and_clean df = .ok r →
      "id" ∈ df.cols ∧ "living_area" ∈ df.cols ∧ "property_type" ∈ df.cols ∧
      "scraping_date" ∈ df.cols ∧ ("price" ∈ df.cols ∨ "raw_price" ∈ df.cols)) ∧
    (∀ df : DF, "raw_price" ∉ df.cols →
      validate_clean_price df = .ok (df, ["raw_price column missing."])) := by
  constructor
  · intro df r h
    obtain ⟨r1, r2, r3, r4, r5, r6, h1, h2, h3, h4, h5, h6, -⟩ := vac_decomp h
    have e1 : r1.1 = df := (vic_ok h1).1
    rw [e1] at h2
    have hvcp := vcp_ok h2
    obtain ⟨ha3, hc3, -, -⟩ := vla_ok h3
    obtain ⟨hp4, -, hc4, -, -⟩ := fps_ok h4
    have back : ∀ c : String, c ≠ "price" → c ∈ r2.1.cols → c ∈ df.cols := by
      intro c hc hmem
      rcases hvcp with ⟨-, hdf, -⟩ | ⟨-, hdf, -⟩
      · rw [hdf] at hmem
        rcases mem_dropCol_cols.mp hmem with ⟨hmem2, -⟩
        rcases mem_setCol_cols.mp hmem2 with hx | hx
        · exact hx
        · exact absurd hx hc
      · rw [hdf] at hmem
        exact hmem
    have hid : "id" ∈ df.cols := (vic_ok h1).2
    have harea : "living_area" ∈ df.cols := back _ (by decide) ha3
    have hpt : "property_type" ∈ df.cols := by
      have hmem := (vpt_ok h5).2
      rw [hc4, hc3] at hmem
      exact back _ (by decide) hmem
    have hsd : "scraping_date" ∈ df.cols := by
      have hmem := (vsd_ok h6).2
      rw [(vpt_ok h5).1, hc4, hc3] at hmem
      exact back _ (by decide) hmem
    have hprice : "price" ∈ df.cols ∨ "raw_price" ∈ df.cols := by
      rcases hvcp with ⟨hraw, -, -⟩ | ⟨-, hdf, -⟩
      · exact Or.inr hraw
      · left
        have hmem := hp4
        rw [hc3, hdf] at hmem
        exact hmem
    exact ⟨hid, harea, hpt, hsd, hprice⟩
  · intro df hmem
    unfold validate_clean_price
    rw [if_neg hmem]

unseal Rat.mul Rat.inv Rat.add Rat.sub in
/-- Witness for C10: the scenario input carries all required columns. -/
theorem pipeline_requires_columns_witness :
    "id" ∈ dfGood.cols ∧ "living_area" ∈ dfGood.cols ∧ "property_type" ∈ dfGood.cols ∧
    "scraping_date" ∈ dfGood.cols ∧ ("price" ∈ dfGood.cols ∨ "raw_price" ∈ dfGood.cols) :=
  pipeline_requires_columns.1 dfGood (dfGoodOut, ["raw_price column missing."]) (by rfl)

unseal Rat.mul Rat.inv Rat.add Rat.sub in
/-- C2 (counterexample): the pipeline does not run in the spec's stage
order.  On `dfOrder` the code order (living-area validation before the
price-per-area filter) logs the bad living area, while the spec order
(filter first) silently drops the row before the living-area check, so
the two orders produce different logs. -/
theorem stage_order_counterexample :
    validate_and_clean dfOrder =
      .ok (dfOrderOut, ["raw_price column missing.", "Invalid living_area values. Indices: 0"]) ∧
    validate_and_clean_spec dfOrder = .ok (dfOrderOut, ["raw_price column missing."]) ∧
    (["raw_price column missing.", "Invalid living_area values. Indices: 0"] : List String) ≠
      ["raw_price column missing."] :=
  ⟨rfl, rfl, by decide⟩

/-- C2 (amended): `validate_and_clean` runs the six stages in the code's
fixed order — id check, price cleaning, living-area validation,
price-per-area filter, property-type check, scraping-date check — i.e. it
equals sequentially composing exactly these stages, with living-area
validation *before* the filter. -/
theorem stage_order_code (df : DF) :
    validate_and_clean df =
      runStages [validate_id_column, validate_clean_price, validate_living_area,
        filter_by_price_per_sqm, validate_property_type, validate_scraping_date] df := by
  unfold validate_and_clean runStages
  cases h1 : validate_id_column df with
  | error e => rfl
  | ok r1 =>
    simp only [exceptBind_ok_eq, runStages]
    cases h2 : validate_clean_price r1.1 with
    | error e => rfl
    | ok r2 =>
      simp only [exceptBind_ok_eq, runStages]
      cases h3 : validate_living_area r2.1 with
      | error e => rfl
      | ok r3 =>
        simp only [exceptBind_ok_eq, runStages]
        cases h4 : filter_by_price_per_sqm r3.1 with
        | error e => rfl
        | ok r4 =>
          simp only [exceptBind_ok_eq, runStages]
          cases h5 : validate_property_type r4.1 with
          | error e => rfl
          | ok r5 =>
            simp only [exceptBind_ok_eq, runStages]
            cases h6 : validate_scraping_date r5.1 with
            | error e => rfl
            | ok r6 =>
              simp only [exceptBind_ok_eq, runStages]
              simp [List.append_assoc]

unseal Rat.mul Rat.inv Rat.add Rat.sub in
/-- C3: loading a plain JSON array fails.  The first `json.loads` parse of
`[{"id": 1}]` succeeds and yields a list, but the code immediately feeds
that list to `json.loads` again, raising a TypeError that the
`except json.JSONDecodeError` handler does not catch; only the
double-encoded variant of the same content loads. -/
theorem plain_json_array_load_typeerror :
    json_parse jsonPlain = .ok (.jarr [.jobj [("id", .jnum 1)]]) ∧
    load_data ".json" jsonPlain = .error .typeError ∧
    load_data ".json" jsonDouble = .ok dfLoaded :=
  ⟨rfl, rfl, rfl⟩

/-- C4 (counterexample): on `dfC4` only row 0 has a null id, yet the
emitted line lists the labels 0 and 1 of *all* current rows — it differs
from the line carrying exactly the violating row that the spec describes
(restated here by `log_errors_spec`). -/
theorem log_errors_violators_counterexample :
    validate_id_column dfC4 =
      .ok (dfC4, ["Null IDs found. Indices: 0, 1",
        "ID is not a string or numeric. Indices: 0, 1"]) ∧
    log_errors_spec (dfC4.rows.map fun row => (row.1, (getVal row.2 "id").isnull))
        "Null IDs found." = ["Null IDs found. Indices: 0"] ∧
    ("Null IDs found. Indices: 0, 1" : String) ≠ "Null IDs found. Indices: 0" :=
  ⟨rfl, rfl, by decide⟩

/-- C4 (amended): when at least one row satisfies the violating condition,
the emitted line `<message> Indices: <...>` lists the index labels of all
rows of the current record set (the condition's index), not only the
violators; no line is emitted when no row violates.  The living-area stage
instantiates this behaviour. -/
theorem log_errors_emits_full_index :
    (∀ (cond : List (Nat × Bool)) (msg : String), cond.any (fun p => p.2) = true →
      log_errors cond msg =
        [msg ++ " Indices: " ++ String.intercalate ", " (cond.map (fun p => toString p.1))]) ∧
    (∀ (cond : List (Nat × Bool)) (msg : String), cond.any (fun p => p.2) = false →
      log_errors cond msg = []) ∧
    (∀ (df : DF) (r : DF × List String), validate_living_area df = .ok r →
      ((∃ row ∈ df.rows, area_ok (getVal row.2 "living_area") = false) →
        r.2 = ["Invalid living_area values." ++ " Indices: " ++
          String.intercalate ", " ((labelsOf df).map (fun n => toString n))]) ∧
      ((∀ row ∈ df.rows, area_ok (getVal row.2 "living_area") = true) → r.2 = [])) := by
  refine ⟨?_, ?_, ?_⟩
  · intro cond msg h
    unfold log_errors
    rw [if_pos h]
  · intro cond msg h
    unfold log_errors
    rw [if_neg (by simp [h])]
  · intro df r h
    obtain ⟨-, -, -, hlog⟩ := vla_ok h
    constructor
    · rintro ⟨row, hrow, hbad⟩
      have hany : (df.rows.map fun row => (row.1, !area_ok (getVal row.2 "living_area"))).any
          (fun p => p.2) = true := by
        rw [any_map_general, List.any_eq_true]
        refine ⟨row, hrow, ?_⟩
        simp [hbad]
      rw [hlog]
      unfold log_errors
      rw [if_pos hany]
      simp only [labelsOf, List.map_map]
      rfl
    · intro hall
      have hany : (df.rows.map fun row => (row.1, !area_ok (getVal row.2 "living_area"))).any
          (fun p => p.2) = false := by
        rw [any_map_general, List.any_eq_false]
        intro x hx
        simp [hall x hx]
      rw [hlog]
      unfold log_errors
      rw [if_neg (by simp [hany])]

/-- Witness for the amended C4: a condition violated only by row 0 still
logs both labels 0 and 1. -/
theorem log_errors_emits_full_index_witness :
    log_errors [(0, true), (1, false)] "Null IDs found." =
      ["Null IDs found. Indices: 0, 1"] :=
  (log_errors_emits_full_index.1 [(0, true), (1, false)] "Null IDs found." (by decide)).trans
    (by decide)

theorem log_errors_ne_nil (cond : List (Nat × Bool)) (msg : String) :
    log_errors cond msg ≠ [] ↔ cond.any (fun p => p.2) = true := by
  unfold log_errors
  by_cases h : cond.any (fun p => p.2) = true
  · rw [if_pos h]
    simp [h]
  · rw [if_neg h]
    simp [h]

unseal Rat.mul Rat.inv Rat.add Rat.sub in
/-- C5: when a `raw_price` column exists and the stage succeeds, the new
`price` column is the regex extraction of each `raw_price` cell (with
`"€ 1234.50 per month"` extracting to 1234.50 and a digit-free string to
null), no row is removed (the labels are unchanged), a log line is
emitted exactly when some extraction came out null, and the `raw_price`
column is dropped from the table. -/
theorem validate_clean_price_extracts :
    (∀ (df df2 : DF) (logs : List String), "raw_price" ∈ df.cols →
      validate_clean_price df = .ok (df2, logs) →
      labelsOf df2 = labelsOf df ∧
      colVals df2 "price" = (colVals df "raw_price").map extract_price ∧
      "raw_price" ∉ df2.cols ∧
      (logs ≠ [] ↔ ∃ v ∈ colVals df "raw_price", extract_price v = .vnull)) ∧
    extract_price (.vstr "€ 1234.50 per month") = .vnum (2469 / 2) ∧
    (∀ s : String, (∀ c ∈ s.data, c.isDigit = false) → extract_price (.vstr s) = .vnull) := by
  refine ⟨?_, by rfl, ?_⟩
  · intro df df2 logs hraw h
    rcases vcp_ok h with ⟨-, hdf, hlog⟩ | ⟨hraw2, -, -⟩
    swap
    · exact absurd hraw hraw2
    have hdf' : df2 = (df.setCol "price" ((df.rows.map fun row =>
        (row.1, extract_price (getVal row.2 "raw_price"))).map fun p => p.2)).dropCol
        "raw_price" := hdf
    have hlog' : logs = log_errors ((df.rows.map fun row =>
        (row.1, extract_price (getVal row.2 "raw_price"))).map fun p =>
          (p.1, (p.2).isnull)) "Invalid or null prices found." := hlog
    have hmm : ((df.rows.map fun row =>
        (row.1, extract_price (getVal row.2 "raw_price"))).map fun p => p.2) =
        df.rows.map (fun row => extract_price (getVal row.2 "raw_price")) := by
      rw [List.map_map]
      rfl
    rw [hmm] at hdf'
    refine ⟨?_, ?_, ?_, ?_⟩
    · rw [hdf', labelsOf_dropCol, labelsOf_setCol_map]
    · rw [hdf']
      unfold colVals DF.dropCol
      rw [rows_setCol_map]
      simp only [List.map_map]
      refine congrArg (fun f => List.map f df.rows) ?_
      funext r
      show getVal (dropKey (setVal r.2 "price" (extract_price (getVal r.2 "raw_price")))
          "raw_price") "price" = extract_price (getVal r.2 "raw_price")
      rw [getVal_dropKey_ne _ (by decide), getVal_setVal_self]
    · rw [hdf']
      simp [mem_dropCol_cols]
    · rw [hlog']
      rw [log_errors_ne_nil]
      rw [any_map_general, any_map_general, List.any_eq_true]
      constructor
      · rintro ⟨row, hrow, hnull⟩
        refine ⟨getVal row.2 "raw_price", List.mem_map_of_mem _ hrow, ?_⟩
        exact isnull_iff.mp (by simpa using hnull)
      · rintro ⟨v, hv, hnull⟩
        obtain ⟨row, hrow, hgv⟩ := List.mem_map.mp hv
        refine ⟨row, hrow, ?_⟩
        show (extract_price (getVal row.2 "raw_price")).isnull = true
        have hgv' : getVal row.2 "raw_price" = v := hgv
        rw [hgv', hnull]
        rfl
  · intro s hs
    have hnone : regex_first_num s.data = none := regex_first_num_none hs
    simp [extract_price, hnone]

unseal Rat.mul Rat.inv Rat.add Rat.sub in
/-- Witness for C5 at `dfRaw`. -/
theorem validate_clean_price_extracts_witness :
    labelsOf dfRawOut = labelsOf dfRaw ∧
    colVals dfRawOut "price" = (colVals dfRaw "raw_price").map extract_price ∧
    "raw_price" ∉ dfRawOut.cols ∧
    ((["Invalid or null prices found. Indices: 0, 1"] : List String) ≠ [] ↔
      ∃ v ∈ colVals dfRaw "raw_price", extract_price v = .vnull) :=
  validate_clean_price_extracts.1 dfRaw dfRawOut
    ["Invalid or null prices found. Indices: 0, 1"] (by decide) (by rfl)

unseal Rat.mul Rat.inv Rat.add Rat.sub in
/-- C8: JSON loading drops a `municipality` column whenever it succeeds
(and also succeeds when the column is absent), while CSV loading keeps a
present `municipality` column in the loaded record set. -/
theorem municipality_dropped_only_for_json :
    (∀ (content : String) (df : DF), load_data ".json" content = .ok df →
      "municipality" ∉ df.cols) ∧
    load_data ".json" jsonDoubleMuni = .ok dfLoaded ∧
    load_data ".json" jsonDouble = .ok dfLoaded ∧
    load_data ".csv" csvMuni = .ok dfCsv ∧
    "municipality" ∈ dfCsv.cols := by
  refine ⟨?_, by rfl, by rfl, by rfl, by decide⟩
  intro content df h
  have hlt : lowerStr ".json" = ".json" := rfl
  simp only [load_data, hlt, if_true, eq_self_iff_true] at h
  split at h
  · exact absurd h (by simp)
  · split at h
    · cases h
      simp [mem_dropCol_cols]
    · exact absurd h (by simp)
  · exact absurd h (by simp)

unseal Rat.mul Rat.inv Rat.add Rat.sub in
/-- Witness for C8: the double-encoded input carrying a `municipality`
field loads to a record set without that column. -/
theorem municipality_dropped_only_for_json_witness :
    "municipality" ∉ dfLoaded.cols :=
  municipality_dropped_only_for_json.1 jsonDoubleMuni dfLoaded (by rfl)
